import Mathlib

/-!
Verification of the facinet facilitator settlement core.

This file gives a shallow embedding of the components exercised by the
claims under scrutiny:

* the network registry (`src/lib/networks.ts`): `NETWORK_CONFIGS`,
  `getNetworkConfig`, `getNetworkByChainId`, `isNetworkSupported`;
* the USDC contract table (`src/lib/contracts.ts`): `USDC_CONTRACTS`,
  `getUSDCContract`;
* the authorization codec (`src/lib/erc3009.ts` and the x402 config module):
  `getX402Config`, `createTransferAuthorization`, `signedAuthorizationToJSON`;
* the facilitator storage layer (Redis-backed, in `src/lib/networks.ts`
  second part / facilitator-storage): `getFacilitator`, `storeFacilitator`,
  `updateFacilitatorStatus`, `recordPayment`;
* the HTTP route handlers: `check-and-activate` (two-threshold funding
  monitor), `settle-batch` (sequential batch settlement) and
  `settle-custom` (single settlement, `src/unnamed/part_008`).

Modelling conventions:

* `process.env` is an explicit parameter `Env : String → Option String`;
  the JavaScript pattern `process.env.X || dflt` is `envOr` (the empty
  string is falsy).
* Redis is an association list keyed by strings, plus the
  `facilitators:active` membership list; functions that `throw` return
  `Option`/`Except` values and the route-level `catch` blocks are the
  corresponding error branches.
* On-chain interaction (transaction submission + confirmation) is an
  explicit oracle parameter: each submitted leg yields an `Outcome`,
  either a confirmed transaction hash with receipt gas data, or a failure
  message (a revert/submission error that `ethers` raises as an
  exception).  Native-token balances are passed in wei as `Nat`; the
  route's decimal comparison against the `0.0001` threshold is the exact
  comparison against `10^14` wei.
* `viem`'s `parseUnits` and JavaScript's `BigInt` decimal
  serialization/parsing are modelled by executable decimal codecs below;
  amounts whose fractional part does not fit the configured precision
  (the rounding path of `parseUnits`) are treated as invalid, matching
  the spec's `InvalidAmount` failure condition.
-/

/-- Model of `process.env`: a partial assignment of environment variables. -/
def Env : Type := String → Option String

/-- The JavaScript idiom `process.env[key] || dflt`: an unset or empty
variable falls back to the default. -/
def envOr (e : Env) (key dflt : String) : String :=
  match e key with
  | none => dflt
  | some v => if v = "" then dflt else v

/-- JavaScript falsiness of an optional string field (`!x` is true for a
missing field or the empty string). -/
def strFalsy : Option String → Bool
  | none => true
  | some s => s == ""

/-- JavaScript falsiness of an optional numeric field (`!x` is true for a
missing field or `0`). -/
def natFalsy : Option Nat → Bool
  | none => true
  | some n => n == 0

/-- String-keyed association-list lookup (JavaScript object property /
Redis key access). -/
def lookupStr {α : Type} : List (String × α) → String → Option α
  | [], _ => none
  | (k, v) :: rest, key => if k = key then some v else lookupStr rest key

/-- Insert-or-replace for an association list (Redis `SET`). -/
def redisSet {α : Type} : List (String × α) → String → α → List (String × α)
  | [], key, v => [(key, v)]
  | (k, w) :: rest, key, v =>
      if k = key then (k, v) :: rest else (k, w) :: redisSet rest key v

/- ===================== Network registry (src/lib/networks.ts) ===================== -/

/-- A wagmi `Chain` restricted to the fields the settlement core reads. -/
structure ChainInfo where
  id : Nat
  name : String
deriving DecidableEq

def avalancheFuji : ChainInfo := ⟨43113, "Avalanche Fuji"⟩
def sepolia : ChainInfo := ⟨11155111, "Sepolia"⟩
def baseSepolia : ChainInfo := ⟨84532, "Base Sepolia"⟩
def polygonAmoy : ChainInfo := ⟨80002, "Polygon Amoy"⟩

/-- Custom Monad Testnet chain (declared inline in networks.ts). -/
def monadTestnet : ChainInfo := ⟨10143, "Monad Testnet"⟩

/-- Custom Arbitrum Sepolia chain (declared inline in networks.ts). -/
def arbitrumSepoliaChain : ChainInfo := ⟨421614, "Arbitrum Sepolia"⟩

structure NativeCurrency where
  name : String
  symbol : String
  decimals : Nat
deriving DecidableEq

/-- EIP-712 domain for ERC-3009 signatures. -/
structure ERC3009Domain where
  name : String
  version : String
  chainId : Nat
  verifyingContract : String
deriving DecidableEq

structure NetworkConfig where
  chain : ChainInfo
  name : String
  displayName : String
  rpcUrl : String
  blockExplorer : String
  usdcAddress : String
  usdcDecimals : Nat
  nativeCurrency : NativeCurrency
  erc3009Domain : ERC3009Domain
deriving DecidableEq

def avalancheFujiConfig (_e : Env) : NetworkConfig :=
  { chain := avalancheFuji
    name := "avalanche-fuji"
    displayName := "Avalanche Fuji"
    rpcUrl := "https://api.avax-test.network/ext/bc/C/rpc"
    blockExplorer := "https://testnet.snowtrace.io"
    usdcAddress := "0x5425890298aed601595a70AB815c96711a31Bc65"
    usdcDecimals := 6
    nativeCurrency := ⟨"Avalanche", "AVAX", 18⟩
    erc3009Domain :=
      ⟨"USD Coin", "2", 43113, "0x5425890298aed601595a70AB815c96711a31Bc65"⟩ }

def ethereumSepoliaConfig (e : Env) : NetworkConfig :=
  { chain := sepolia
    name := "ethereum-sepolia"
    displayName := "Ethereum Sepolia"
    rpcUrl := envOr e "RPC_URL_ETHEREUM_SEPOLIA" "https://ethereum-sepolia-rpc.publicnode.com"
    blockExplorer := "https://sepolia.etherscan.io"
    usdcAddress :=
      envOr e "NEXT_PUBLIC_USDC_ADDRESS_SEPOLIA" "0x1c7D4B196Cb0C7B01d743Fbc6116a902379C7238"
    usdcDecimals := 6
    nativeCurrency := ⟨"Ethereum", "ETH", 18⟩
    erc3009Domain :=
      ⟨"USDC", "2", 11155111,
        envOr e "NEXT_PUBLIC_USDC_ADDRESS_SEPOLIA" "0x1c7D4B196Cb0C7B01d743Fbc6116a902379C7238"⟩ }

def baseSepoliaConfig (e : Env) : NetworkConfig :=
  { chain := baseSepolia
    name := "base-sepolia"
    displayName := "Base Sepolia"
    rpcUrl := envOr e "RPC_URL_BASE_SEPOLIA" "https://sepolia.base.org"
    blockExplorer := "https://sepolia.basescan.org"
    usdcAddress :=
      envOr e "NEXT_PUBLIC_USDC_ADDRESS_BASE_SEPOLIA" "0x036CbD53842c5426634e7929541eC2318f3dCF7e"
    usdcDecimals := 6
    nativeCurrency := ⟨"Ethereum", "ETH", 18⟩
    erc3009Domain :=
      ⟨"USDC", "2", 84532,
        envOr e "NEXT_PUBLIC_USDC_ADDRESS_BASE_SEPOLIA" "0x036CbD53842c5426634e7929541eC2318f3dCF7e"⟩ }

def polygonAmoyConfig (e : Env) : NetworkConfig :=
  { chain := polygonAmoy
    name := "polygon-amoy"
    displayName := "Polygon Amoy"
    rpcUrl := envOr e "RPC_URL_POLYGON_AMOY" "https://rpc-amoy.polygon.technology"
    blockExplorer := "https://amoy.polygonscan.com"
    usdcAddress :=
      envOr e "NEXT_PUBLIC_USDC_ADDRESS_POLYGON_AMOY" "0x41E94Eb019C0762f9Bfcf9Fb1E58725BfB0e7582"
    usdcDecimals := 6
    nativeCurrency := ⟨"Polygon", "MATIC", 18⟩
    erc3009Domain :=
      ⟨"USDC", "2", 80002,
        envOr e "NEXT_PUBLIC_USDC_ADDRESS_POLYGON_AMOY" "0x41E94Eb019C0762f9Bfcf9Fb1E58725BfB0e7582"⟩ }

def arbitrumSepoliaConfig (e : Env) : NetworkConfig :=
  { chain := arbitrumSepoliaChain
    name := "arbitrum-sepolia"
    displayName := "Arbitrum Sepolia"
    rpcUrl := envOr e "RPC_URL_ARBITRUM_SEPOLIA" "https://sepolia-rollup.arbitrum.io/rpc"
    blockExplorer := "https://sepolia.arbiscan.io"
    usdcAddress :=
      envOr e "NEXT_PUBLIC_USDC_ADDRESS_ARBITRUM_SEPOLIA" "0x75faf114eafb1BDbe2F0316DF893fd58CE46AA4d"
    usdcDecimals := 6
    nativeCurrency := ⟨"Ethereum", "ETH", 18⟩
    erc3009Domain :=
      ⟨"USDC", "2", 421614,
        envOr e "NEXT_PUBLIC_USDC_ADDRESS_ARBITRUM_SEPOLIA" "0x75faf114eafb1BDbe2F0316DF893fd58CE46AA4d"⟩ }

def monadTestnetConfig (e : Env) : NetworkConfig :=
  { chain := monadTestnet
    name := "monad-testnet"
    displayName := "Monad Testnet"
    rpcUrl := envOr e "RPC_URL_MONAD_TESTNET" "https://testnet-rpc.monad.xyz"
    blockExplorer := "https://testnet.monadvision.com"
    usdcAddress :=
      envOr e "NEXT_PUBLIC_USDC_ADDRESS_MONAD_TESTNET" "0x534b2f3A21130d7a60830c2Df862319e593943A3"
    usdcDecimals := 6
    nativeCurrency := ⟨"Monad", "MON", 18⟩
    erc3009Domain :=
      ⟨"USDC", "2", 10143,
        envOr e "NEXT_PUBLIC_USDC_ADDRESS_MONAD_TESTNET" "0x534b2f3A21130d7a60830c2Df862319e593943A3"⟩ }

/-- The registry table `NETWORK_CONFIGS`, in source declaration order. -/
def NETWORK_CONFIGS (e : Env) : List (String × NetworkConfig) :=
  [("avalanche-fuji", avalancheFujiConfig e),
   ("ethereum-sepolia", ethereumSepoliaConfig e),
   ("base-sepolia", baseSepoliaConfig e),
   ("polygon-amoy", polygonAmoyConfig e),
   ("arbitrum-sepolia", arbitrumSepoliaConfig e),
   ("monad-testnet", monadTestnetConfig e)]

/-- The lookup `getNetworkConfig(networkName)`; `none` models the
`Unsupported network` throw. -/
def getNetworkConfig (e : Env) (networkName : String) : Option NetworkConfig :=
  lookupStr (NETWORK_CONFIGS e) networkName

/-- The lookup `getNetworkByChainId(chainId)`: first registry entry with a matching
chain id, or `null`. -/
def getNetworkByChainId (e : Env) (chainId : Nat) : Option NetworkConfig :=
  ((NETWORK_CONFIGS e).map (fun p => p.2)).find? (fun c => c.chain.id == chainId)

/-- The predicate `isNetworkSupported(networkName)`. -/
def isNetworkSupported (e : Env) (networkName : String) : Bool :=
  (getNetworkConfig e networkName).isSome

/- ===================== USDC contract table (src/lib/contracts.ts) ===================== -/

structure USDCContract where
  address : String
  decimals : Nat
  symbol : String
  name : String
deriving DecidableEq

/-- The table `USDC_CONTRACTS`: note this table covers only four of the six
registry networks, and its Sepolia/Base/Amoy defaults are the sentinel
string `0x` rather than the registry defaults. -/
def USDC_CONTRACTS (e : Env) : List (String × USDCContract) :=
  [("avalanche-fuji", ⟨"0x5425890298aed601595a70AB815c96711a31Bc65", 6, "USDC", "USD Coin"⟩),
   ("ethereum-sepolia", ⟨envOr e "NEXT_PUBLIC_USDC_ADDRESS_SEPOLIA" "0x", 6, "USDC", "USD Coin"⟩),
   ("base-sepolia", ⟨envOr e "NEXT_PUBLIC_USDC_ADDRESS_BASE_SEPOLIA" "0x", 6, "USDC", "USD Coin"⟩),
   ("polygon-amoy", ⟨envOr e "NEXT_PUBLIC_USDC_ADDRESS_POLYGON_AMOY" "0x", 6, "USDC", "USD Coin"⟩)]

/-- The accessor `getUSDCContract(network)`; the two `Error` branches of the source are
the two `Except.error` messages. -/
def getUSDCContract (e : Env) (network : String) : Except String USDCContract :=
  match lookupStr (USDC_CONTRACTS e) network with
  | none => .error ("USDC contract not configured for network: " ++ network)
  | some c =>
      if c.address = "" ∨ c.address = "0x" then
        .error ("USDC contract address not set for " ++ network)
      else .ok c

/- ===================== Decimal codecs (BigInt.toString / parsing, viem parseUnits) ===================== -/

/-- The character for a single decimal digit. -/
def digitChar (d : Nat) : Char :=
  match d with
  | 0 => '0' | 1 => '1' | 2 => '2' | 3 => '3' | 4 => '4'
  | 5 => '5' | 6 => '6' | 7 => '7' | 8 => '8' | 9 => '9'
  | _ => '*'

/-- Numeric value of a decimal digit character. -/
def charDigit (c : Char) : Nat := c.toNat - 48

/-- Is `c` one of the characters `0`..`9`? -/
def isDigitChar (c : Char) : Bool := 48 ≤ c.toNat && c.toNat ≤ 57

/-- JavaScript `BigInt.prototype.toString()` for non-negative values:
the usual decimal representation, `0` included. -/
def natToDecimalString (n : Nat) : String :=
  if n = 0 then "0" else ⟨(Nat.digits 10 n).reverse.map digitChar⟩

/-- Parse a non-empty all-digit character list as a decimal natural. -/
def parseDecimalNatList (cs : List Char) : Option Nat :=
  if cs ≠ [] ∧ cs.all isDigitChar then
    some (Nat.ofDigits 10 ((cs.map charDigit).reverse))
  else none

/-- Parse a decimal-string wire field back to an unsigned integer. -/
def parseDecimalNat (s : String) : Option Nat := parseDecimalNatList s.data

/-- JavaScript `BigInt.prototype.toString()` including the sign. -/
def intToDecimalString (i : Int) : String :=
  if i < 0 then "-" ++ natToDecimalString i.natAbs else natToDecimalString i.toNat

/-- Parse an optionally-signed decimal character list as an integer. -/
def parseDecimalIntList (cs : List Char) : Option Int :=
  match cs with
  | '-' :: rest => (parseDecimalNatList rest).map (fun n => -(n : Int))
  | _ => (parseDecimalNatList cs).map (fun n => (n : Int))

/-- Parse a decimal-string wire field back to a signed integer. -/
def parseDecimalInt (s : String) : Option Int := parseDecimalIntList s.data

/-- Split a character list at the first `.` (JavaScript
`value.split('.')` restricted to at most one dot; strings with a second
dot make the fractional part non-numeric and hence invalid below). -/
def splitOnDot : List Char → List Char × Option (List Char)
  | [] => ([], none)
  | c :: rest =>
      if c = '.' then ([], some rest)
      else
        let (intPart, fracPart) := splitOnDot rest
        (c :: intPart, fracPart)

/-- Numeric value of an all-digit character list (most significant first). -/
def decimalValue (cs : List Char) : Nat := Nat.ofDigits 10 ((cs.map charDigit).reverse)

/-- viem `parseUnits(value, decimals)` on amounts whose fractional part
fits the configured precision; amounts that do not parse at that
precision are `none` (the spec's `InvalidAmount`). -/
def parseUnits (value : String) (decimals : Nat) : Option Nat :=
  match splitOnDot value.data with
  | (intPart, none) =>
      if intPart ≠ [] ∧ intPart.all isDigitChar then
        some (decimalValue intPart * 10 ^ decimals)
      else none
  | (intPart, some fracPart) =>
      if intPart ≠ [] ∧ intPart.all isDigitChar ∧ fracPart ≠ [] ∧
          fracPart.all isDigitChar ∧ fracPart.length ≤ decimals then
        some (decimalValue intPart * 10 ^ decimals +
              decimalValue fracPart * 10 ^ (decimals - fracPart.length))
      else none

/- ===================== x402 config (getX402Config) ===================== -/

/-- The configuration object returned by `getX402Config`. -/
structure X402Config where
  VERSION : Nat
  FACILITATOR_URL : String
  NETWORK : String
  USDC_ADDRESS : String
  PAYMENT_RECIPIENT : String
  PAYMENT_AMOUNT : String
  USDC_DECIMALS : Nat
  TIMEOUT_SECONDS : Nat
deriving DecidableEq

/-- The resolution `network || process.env.NEXT_PUBLIC_DEFAULT_NETWORK || 'avalanche-fuji'`. -/
def defaultNetworkName (e : Env) (network : Option String) : String :=
  match network with
  | some s => if s = "" then envOr e "NEXT_PUBLIC_DEFAULT_NETWORK" "avalanche-fuji" else s
  | none => envOr e "NEXT_PUBLIC_DEFAULT_NETWORK" "avalanche-fuji"

/-- The function `getX402Config(network)`; `none` when the resolved network is not in
the registry (`getNetworkConfig` throws). -/
def getX402Config (e : Env) (network : Option String) : Option X402Config :=
  let networkName := defaultNetworkName e network
  (getNetworkConfig e networkName).map fun cfg =>
    { VERSION := 1
      FACILITATOR_URL := "/api/x402"
      NETWORK := networkName
      USDC_ADDRESS := cfg.usdcAddress
      PAYMENT_RECIPIENT := (e "NEXT_PUBLIC_PAYMENT_RECIPIENT").getD ""
      PAYMENT_AMOUNT := envOr e "NEXT_PUBLIC_PAYMENT_AMOUNT" "1"
      USDC_DECIMALS := cfg.usdcDecimals
      TIMEOUT_SECONDS := 300 }

/- ===================== Authorization codec (src/lib/erc3009.ts) ===================== -/

/-- ERC-3009 `TransferWithAuthorization` message (bigint form). -/
structure TransferWithAuthorization where
  «from» : String
  «to» : String
  value : Nat
  validAfter : Int
  validBefore : Int
  nonce : String
deriving DecidableEq

/-- Wire (JSON-safe) form: unsigned-integer fields as decimal strings. -/
structure TransferAuthorizationJSON where
  «from» : String
  «to» : String
  value : String
  validAfter : String
  validBefore : String
  nonce : String
deriving DecidableEq

structure SignedAuthorization where
  signature : String
  authorization : TransferWithAuthorization
deriving DecidableEq

structure SignedAuthorizationJSON where
  signature : String
  authorization : TransferAuthorizationJSON
deriving DecidableEq

/-- The builder `createTransferAuthorization(from, to, amountUSDC, network)`.

The two effectful inputs of the source — `Date.now()` and the random
32-byte nonce — are explicit parameters `now` and `nonce`; `none` models
the exceptions of `getX402Config` (unsupported network) and `parseUnits`
(invalid amount). -/
def createTransferAuthorization (e : Env) (fromAddr toAddr amountUSDC : String)
    (network : Option String) (now : Int) (nonce : String) :
    Option TransferWithAuthorization :=
  match getX402Config e network with
  | none => none
  | some config =>
      match parseUnits amountUSDC config.USDC_DECIMALS with
      | none => none
      | some value =>
          some { «from» := fromAddr
                 «to» := toAddr
                 value := value
                 validAfter := now - 60
                 validBefore := now + config.TIMEOUT_SECONDS
                 nonce := nonce }

/-- The serializer `signedAuthorizationToJSON`: BigInt fields become decimal strings;
addresses, nonce and signature are passed through. -/
def signedAuthorizationToJSON (signedAuth : SignedAuthorization) : SignedAuthorizationJSON :=
  { signature := signedAuth.signature
    authorization :=
      { «from» := signedAuth.authorization.«from»
        «to» := signedAuth.authorization.«to»
        value := natToDecimalString signedAuth.authorization.value
        validAfter := intToDecimalString signedAuth.authorization.validAfter
        validBefore := intToDecimalString signedAuth.authorization.validBefore
        nonce := signedAuth.authorization.nonce } }

/- ===================== Facilitator storage (facilitator-storage, Redis) ===================== -/

inductive FacStatus
  | needs_funding
  | active
  | inactive
deriving DecidableEq

/-- A stored facilitator record.  `network` and `chainId` are optional:
records created before network-awareness lack them (the auto-migration
target of `getFacilitator`). -/
structure Facilitator where
  id : String
  name : String
  encryptedPrivateKey : String
  systemEncryptedKey : String
  facilitatorWallet : String
  paymentRecipient : String
  createdBy : String
  registrationTxHash : String
  createdAt : Nat
  lastUsed : Nat
  totalPayments : Nat
  status : FacStatus
  network : Option String
  chainId : Option Nat
deriving DecidableEq

/-- The Redis keyspace used by facilitator storage: the per-record keys
and the `facilitators:active` membership set. -/
structure RedisState where
  kv : List (String × Facilitator)
  activeIds : List String
deriving DecidableEq

/-- The per-record Redis key `facilitator:<id>`. -/
def facKey (id : String) : String := "facilitator:" ++ id

/-- Redis `SADD`: add a member if absent. -/
def saddList (l : List String) (x : String) : List String :=
  if x ∈ l then l else l ++ [x]

/-- The writer `storeFacilitator`: write the record under its own id and add the id
to the active set. -/
def storeFacilitator (s : RedisState) (f : Facilitator) : RedisState :=
  ⟨redisSet s.kv (facKey f.id) f, saddList s.activeIds f.id⟩

/-- The migration target applied to a record missing `network`/`chainId`. -/
def migrateFac (f : Facilitator) : Facilitator :=
  { f with network := some "avalanche-fuji", chainId := some 43113 }

/-- The reader `getFacilitator(id)`: read a record; if `network` or `chainId` is
falsy, fill in the avalanche-fuji defaults and write the record back
(the auto-migration).  Returns the record together with the possibly
updated store. -/
def getFacilitator (s : RedisState) (id : String) : Option Facilitator × RedisState :=
  match lookupStr s.kv (facKey id) with
  | none => (none, s)
  | some f =>
      if strFalsy f.network || natFalsy f.chainId then
        (some (migrateFac f), ⟨redisSet s.kv (facKey id) (migrateFac f), s.activeIds⟩)
      else (some f, s)

/-- The mutator `updateFacilitatorStatus(id, status)`; `none` models the
`Facilitator not found` throw. -/
def updateFacilitatorStatus (s : RedisState) (id : String) (status : FacStatus) :
    Option RedisState :=
  match getFacilitator s id with
  | (none, _) => none
  | (some f, s1) => some (storeFacilitator s1 { f with status := status })

/-- The mutator `recordPayment(id)`: increment `totalPayments` and stamp `lastUsed`
with the current time; `none` models the `Facilitator not found` throw. -/
def recordPayment (s : RedisState) (id : String) (now : Nat) : Option RedisState :=
  match getFacilitator s id with
  | (none, _) => none
  | (some f, s1) =>
      some (storeFacilitator s1
        { f with totalPayments := f.totalPayments + 1, lastUsed := now })

/-- The default `facilitator.network || 'avalanche-fuji'`. -/
def networkOrDefault : Option String → String
  | none => "avalanche-fuji"
  | some s => if s = "" then "avalanche-fuji" else s

/- ===================== Funding monitor (check-and-activate route) ===================== -/

/-- The `DEACTIVATION_THRESHOLD` of the route (0.0001 native token) expressed
in wei: the route compares `parseFloat(formatEther(balance))` against the
decimal `0.0001`, which at the wei granularity relevant to the claims is
the exact comparison against `10^14` wei. -/
def DEACTIVATION_THRESHOLD_WEI : Nat := 100000000000000

/-- The `RECOMMENDED_BALANCES` table of the route, in wei (0.1 token = 10^17 wei,
0.05 token = 5 * 10^16 wei). -/
def RECOMMENDED_BALANCES_WEI : List (String × Nat) :=
  [("avalanche-fuji", 100000000000000000),
   ("ethereum-sepolia", 50000000000000000),
   ("base-sepolia", 50000000000000000),
   ("polygon-amoy", 100000000000000000),
   ("arbitrum-sepolia", 50000000000000000),
   ("monad-testnet", 100000000000000000),
   ("optimism-sepolia", 50000000000000000)]

/-- The fallback `RECOMMENDED_BALANCES[network] || 0.1` (0.1 token = 10^17 wei;
a zero table entry is falsy and also falls back). -/
def recommendedFor (table : List (String × Nat)) (network : String) : Nat :=
  match lookupStr table network with
  | none => 100000000000000000
  | some n => if n = 0 then 100000000000000000 else n

/-- The status computation of the route: strictly above the deactivation
threshold means `active`, at or below means `needs_funding`. -/
def computeNewStatus (balanceWei : Nat) : FacStatus :=
  if DEACTIVATION_THRESHOLD_WEI < balanceWei then .active else .needs_funding

/-- The JSON responses of the check-and-activate route. -/
inductive CheckResult
  | badRequest (error : String)
  | notFound (error : String)
  | ok (status : FacStatus) (isFunded : Bool) (minimumRequired recommendedMinimum balanceWei : Nat)
  | serverError (error : String)
deriving DecidableEq

/-- The status carried by a successful check-and-activate response. -/
def statusOf : CheckResult → Option FacStatus
  | .ok st _ _ _ _ => some st
  | _ => none

/-- The POST handler of `check-and-activate` (two-threshold version).

`recTable` is the `RECOMMENDED_BALANCES` table (a parameter so that its
irrelevance to the computed status is expressible); `balanceWei` is the
balance the RPC node reports for the facilitator wallet. -/
def checkAndActivate (e : Env) (recTable : List (String × Nat)) (s : RedisState)
    (facilitatorId : String) (balanceWei : Nat) : CheckResult × RedisState :=
  if facilitatorId = "" then (.badRequest "Missing facilitator ID", s)
  else
    match getFacilitator s facilitatorId with
    | (none, s1) => (.notFound "Facilitator not found", s1)
    | (some f, s1) =>
        let network := networkOrDefault f.network
        match getNetworkConfig e network with
        | none => (.serverError "Failed to check and activate facilitator", s1)
        | some _cfg =>
            let recommendedBalance := recommendedFor recTable network
            let newStatus := computeNewStatus balanceWei
            if f.status ≠ newStatus then
              match updateFacilitatorStatus s1 facilitatorId newStatus with
              | none => (.serverError "Failed to check and activate facilitator", s1)
              | some s2 =>
                  (.ok newStatus (decide (DEACTIVATION_THRESHOLD_WEI < balanceWei))
                     DEACTIVATION_THRESHOLD_WEI recommendedBalance balanceWei, s2)
            else
              (.ok newStatus (decide (DEACTIVATION_THRESHOLD_WEI < balanceWei))
                 DEACTIVATION_THRESHOLD_WEI recommendedBalance balanceWei, s1)

/- ===================== Settlement engine (settle-batch, settle-custom) ===================== -/

/-- Per-leg on-chain result: either a confirmed transaction (hash plus
receipt gas data), or the exception an ethers submission/confirmation
raises. -/
inductive Outcome
  | success (txHash : String) (gasUsed gasPrice : Nat)
  | failure (message : String)
deriving DecidableEq

/-- Aggregate result of the sequential settlement loop. -/
structure BatchRun where
  txHashes : List String
  submitted : Nat
  totalGas : Nat
  failMsg : Option String
deriving DecidableEq

/-- The sequential `for` loop of the batch route: submit each leg in
order, wait for confirmation, stop at the first failure.  Confirmed
hashes accumulate; a failing leg counts as submitted; legs after a
failure are never reached. -/
def execLegs : List Outcome → BatchRun
  | [] => ⟨[], 0, 0, none⟩
  | .failure m :: _ => ⟨[], 1, 0, some m⟩
  | .success h g p :: rest =>
      let r := execLegs rest
      ⟨h :: r.txHashes, r.submitted + 1, g * p + r.totalGas, r.failMsg⟩

/-- The JSON responses of the settle-batch route.  The `failed`
constructor is the catch-all 500 response, whose body carries only the
`error` and `message` fields. -/
inductive BatchResponse
  | badRequest (error : String)
  | notFound (error : String)
  | configError
  | failed (error message : String)
  | ok (txHashes : List String) (transferCount totalGasSpent : Nat)
deriving DecidableEq

/-- The transaction hashes a settle-batch response body carries. -/
def responseHashes : BatchResponse → List String
  | .ok hs _ _ => hs
  | _ => []

/-- The POST handler of `settle-batch`.

`authCount` is `authorizations.length` (the payload contents feed only
the abstracted contract call); `outcomes` is the on-chain oracle, one
entry per potential leg, consumed in order; `decrypt` is the result of
`decryptPrivateKey`; `now` is `Date.now()` at `recordPayment` time.
Returns the response, the final store, and the list of transactions
confirmed on chain during the call (which remain settled regardless of
later failures). -/
def settleBatch (e : Env) (s : RedisState) (facilitatorId network : String)
    (authCount : Nat) (outcomes : List Outcome) (decrypt : Except String Unit)
    (now : Nat) : BatchResponse × RedisState × List String :=
  if facilitatorId = "" ∨ network = "" then
    (.badRequest "Missing required fields: facilitatorId, network, authorizations", s, [])
  else if authCount = 0 then
    (.badRequest "At least one authorization required", s, [])
  else
    match getFacilitator s facilitatorId with
    | (none, s1) => (.notFound "Facilitator not found", s1, [])
    | (some f, s1) =>
        let facilitatorNetwork := networkOrDefault f.network
        if facilitatorNetwork ≠ network then
          (.badRequest ("Facilitator is on " ++ facilitatorNetwork ++ ", not " ++ network),
           s1, [])
        else if strFalsy (e "SYSTEM_MASTER_KEY") then (.configError, s1, [])
        else
          match decrypt with
          | .error m => (.failed "Batch settlement failed" m, s1, [])
          | .ok _ =>
              match getNetworkConfig e network with
              | none =>
                  (.failed "Batch settlement failed" ("Unsupported network: " ++ network),
                   s1, [])
              | some _cfg =>
                  let run := execLegs (outcomes.take authCount)
                  match run.failMsg with
                  | some m =>
                      (.failed "Batch settlement failed" m, s1, run.txHashes)
                  | none =>
                      match recordPayment s1 facilitatorId now with
                      | none =>
                          (.failed "Batch settlement failed" "Facilitator not found",
                           s1, run.txHashes)
                      | some s2 =>
                          (.ok run.txHashes run.txHashes.length run.totalGas, s2,
                           run.txHashes)

/-- Keep a token-contract address candidate only if it is a string other
than the sentinel `0x` with length at least 42 (the `filter` of the
settle-custom route). -/
def isValidCandidate (o : Option String) : Option String :=
  match o with
  | none => none
  | some a => if a ≠ "0x" ∧ 42 ≤ a.length then some a else none

/-- The token-contract address resolution of the settle-custom route:
first surviving candidate among `usdcAddress`, `contractAddress`,
`verifyingContract`, the signed payload's `domain.verifyingContract`,
and the registry default — falling back to the registry default when no
candidate survives. -/
def resolveUsdcAddress (bodyUsdc bodyContract bodyVerifying payloadDomainVerifying :
    Option String) (registryDefault : String) : String :=
  let candidates :=
    ([bodyUsdc, bodyContract, bodyVerifying, payloadDomainVerifying,
      some registryDefault]).filterMap isValidCandidate
  match candidates.head? with
  | some a => a
  | none => registryDefault

/-- The JSON responses of the settle-custom route. -/
inductive CustomResponse
  | badRequest (error : String)
  | notFound (error : String)
  | configError
  | failed (error message : String)
  | ok (txHash networkName usdcAddress : String)
deriving DecidableEq

/-- The POST handler of `settle-custom` (`src/unnamed/part_008`).

Network resolution is three-tier: a supported request network name, else
lookup by request chain id, else the facilitator's bound network.  The
token contract address then falls through the candidate fields (see
`resolveUsdcAddress`).  `outcome` is the on-chain oracle for the single
`transferWithAuthorization` call. -/
def settleCustom (e : Env) (s : RedisState) (facilitatorId : String)
    (requestNetwork : Option String) (requestChainId : Option Nat)
    (bodyUsdc bodyContract bodyVerifying payloadDomainVerifying : Option String)
    (decrypt : Except String Unit) (outcome : Outcome) (now : Nat) :
    CustomResponse × RedisState :=
  if facilitatorId = "" then (.badRequest "Missing facilitatorId or paymentPayload", s)
  else
    match getFacilitator s facilitatorId with
    | (none, s1) => (.notFound "Facilitator not found", s1)
    | (some f, s1) =>
        let byChainOrFac : Option Nat → String := fun rc =>
          match rc with
          | some cid =>
              (match getNetworkByChainId e cid with
               | some byChain => byChain.name
               | none => networkOrDefault f.network)
          | none => networkOrDefault f.network
        let networkName :=
          match requestNetwork with
          | some rn =>
              if rn ≠ "" ∧ isNetworkSupported e rn then rn else byChainOrFac requestChainId
          | none => byChainOrFac requestChainId
        match getNetworkConfig e networkName with
        | none => (.failed "Settlement failed" ("Unsupported network: " ++ networkName), s1)
        | some _cfg =>
            match getUSDCContract e networkName with
            | .error m => (.failed "Settlement failed" m, s1)
            | .ok usdcContractConfig =>
                if strFalsy (e "SYSTEM_MASTER_KEY") then (.configError, s1)
                else
                  match decrypt with
                  | .error m => (.failed "Settlement failed" m, s1)
                  | .ok _ =>
                      let finalUsdcAddress :=
                        resolveUsdcAddress bodyUsdc bodyContract bodyVerifying
                          payloadDomainVerifying usdcContractConfig.address
                      match outcome with
                      | .failure m => (.failed "Settlement failed" m, s1)
                      | .success h _g _p =>
                          match recordPayment s1 facilitatorId now with
                          | none => (.failed "Settlement failed" "Facilitator not found", s1)
                          | some s2 => (.ok h networkName finalUsdcAddress, s2)

/- ===================== Shared sample data for witnesses ===================== -/

/-- A sample environment: only the system master key is set. -/
def envMK : Env := fun k => if k = "SYSTEM_MASTER_KEY" then some "master-secret" else none

/-- A sample environment with nothing set. -/
def envNone : Env := fun _ => none

/-- A network-aware (post-migration) sample record. -/
def sampleFac : Facilitator :=
  ⟨"f1", "Fac One", "enc", "sysenc", "0xWallet1", "0xRecip1", "0xOwner1", "0xReg1",
   100, 200, 5, .active, some "avalanche-fuji", some 43113⟩

/-- A store holding only `sampleFac`. -/
def sampleState : RedisState := ⟨[("facilitator:f1", sampleFac)], ["f1"]⟩

/-- A pre-network-aware sample record (no `network`, no `chainId`). -/
def oldFac : Facilitator :=
  ⟨"f2", "Fac Two", "enc", "sysenc", "0xWallet2", "0xRecip2", "0xOwner2", "0xReg2",
   100, 200, 7, .active, none, none⟩

/-- A store holding only `oldFac`. -/
def oldState : RedisState := ⟨[("facilitator:f2", oldFac)], ["f2"]⟩

/- ===================== Store lemmas ===================== -/

theorem lookupStr_redisSet_self {α : Type} (kv : List (String × α)) (k : String) (v : α) :
    lookupStr (redisSet kv k v) k = some v := by
  induction kv with
  | nil => simp [redisSet, lookupStr]
  | cons p rest ih =>
      obtain ⟨k0, w⟩ := p
      by_cases h : k0 = k
      · subst h; simp [redisSet, lookupStr]
      · simp [redisSet, lookupStr, h, ih]

theorem migrateFac_not_falsy (f : Facilitator) :
    (strFalsy (migrateFac f).network || natFalsy (migrateFac f).chainId) = false := by
  simp [migrateFac, strFalsy, natFalsy]

theorem getFacilitator_of_lookup (s : RedisState) (id : String) (f0 : Facilitator)
    (h0 : lookupStr s.kv (facKey id) = some f0) :
    getFacilitator s id =
      (if (strFalsy f0.network || natFalsy f0.chainId) = true then
        (some (migrateFac f0), ⟨redisSet s.kv (facKey id) (migrateFac f0), s.activeIds⟩)
      else (some f0, s)) := by
  unfold getFacilitator
  rw [h0]

theorem getFacilitator_idem (s s1 : RedisState) (id : String) (f : Facilitator)
    (h : getFacilitator s id = (some f, s1)) :
    getFacilitator s1 id = (some f, s1) := by
  unfold getFacilitator at h
  split at h
  · simp at h
  · rename_i f0 heq
    split at h
    · rename_i hc
      obtain ⟨h1, h2⟩ := Prod.mk.injEq .. ▸ h
      injection h1 with h1
      subst h1
      subst h2
      simp [getFacilitator, lookupStr_redisSet_self, migrateFac_not_falsy]
    · rename_i hc
      obtain ⟨h1, h2⟩ := Prod.mk.injEq .. ▸ h
      injection h1 with h1
      subst h1
      subst h2
      simp [getFacilitator, heq, hc]

theorem getFacilitator_preserves (s : RedisState) (id : String) (f0 f : Facilitator)
    (h0 : lookupStr s.kv (facKey id) = some f0)
    (h : (getFacilitator s id).1 = some f) :
    f.totalPayments = f0.totalPayments ∧ f.lastUsed = f0.lastUsed ∧
    f.status = f0.status ∧ f.id = f0.id := by
  rw [getFacilitator_of_lookup s id f0 h0] at h
  by_cases hc : (strFalsy f0.network || natFalsy f0.chainId) = true
  · rw [if_pos hc] at h
    injection h with h
    subst h
    exact ⟨rfl, rfl, rfl, rfl⟩
  · rw [if_neg hc] at h
    injection h with h
    subst h
    exact ⟨rfl, rfl, rfl, rfl⟩

theorem lookup_after_getFacilitator (s : RedisState) (id : String) (f0 g : Facilitator)
    (h0 : lookupStr s.kv (facKey id) = some f0)
    (hg : lookupStr (getFacilitator s id).2.kv (facKey id) = some g) :
    g.totalPayments = f0.totalPayments ∧ g.lastUsed = f0.lastUsed := by
  rw [getFacilitator_of_lookup s id f0 h0] at hg
  by_cases hc : (strFalsy f0.network || natFalsy f0.chainId) = true
  · rw [if_pos hc] at hg
    simp only [lookupStr_redisSet_self] at hg
    injection hg with hg
    subst hg
    exact ⟨rfl, rfl⟩
  · rw [if_neg hc] at hg
    simp only [h0] at hg
    injection hg with hg
    subst hg
    exact ⟨rfl, rfl⟩

theorem updateFacilitatorStatus_eq (s s1 : RedisState) (id : String) (f : Facilitator)
    (st : FacStatus) (h : getFacilitator s id = (some f, s1)) :
    updateFacilitatorStatus s1 id st = some (storeFacilitator s1 { f with status := st }) := by
  unfold updateFacilitatorStatus
  rw [getFacilitator_idem s s1 id f h]

theorem recordPayment_eq (s s1 : RedisState) (id : String) (f : Facilitator) (now : Nat)
    (h : getFacilitator s id = (some f, s1)) :
    recordPayment s1 id now =
      some (storeFacilitator s1
        { f with totalPayments := f.totalPayments + 1, lastUsed := now }) := by
  unfold recordPayment
  rw [getFacilitator_idem s s1 id f h]

/- ===================== Settlement loop lemmas ===================== -/

theorem execLegs_all_success (pres : List (String × Nat × Nat)) :
    execLegs (pres.map (fun t => Outcome.success t.1 t.2.1 t.2.2)) =
      ⟨pres.map (fun t => t.1), pres.length,
       (pres.map (fun t => t.2.1 * t.2.2)).sum, none⟩ := by
  induction pres with
  | nil => rfl
  | cons t rest ih => simp [execLegs, ih]

theorem execLegs_stops_at_failure (pres : List (String × Nat × Nat)) (m : String)
    (post : List Outcome) :
    execLegs (pres.map (fun t => Outcome.success t.1 t.2.1 t.2.2) ++
        Outcome.failure m :: post) =
      ⟨pres.map (fun t => t.1), pres.length + 1,
       (pres.map (fun t => t.2.1 * t.2.2)).sum, some m⟩ := by
  induction pres with
  | nil => rfl
  | cons t rest ih => simp [execLegs, ih]

/- ===================== Address resolution lemmas ===================== -/

theorem isValidCandidate_some (x a : String) (h : isValidCandidate (some x) = some a) :
    a = x := by
  simp only [isValidCandidate] at h
  by_cases hc : x ≠ "0x" ∧ 42 ≤ x.length
  · rw [if_pos hc] at h; injection h with h; exact h.symm
  · rw [if_neg hc] at h; exact Option.noConfusion h

theorem resolveUsdcAddress_eq (u c v d : Option String) (dflt : String) :
    resolveUsdcAddress u c v d dflt =
      (([u, c, v, d].filterMap isValidCandidate).head?).getD dflt := by
  unfold resolveUsdcAddress
  rw [show ([u, c, v, d, some dflt] : List (Option String)) = [u, c, v, d] ++ [some dflt]
    from rfl]
  rw [List.filterMap_append]
  cases hl : [u, c, v, d].filterMap isValidCandidate with
  | nil =>
      simp only [List.nil_append]
      cases hd : isValidCandidate (some dflt) with
      | none => simp [List.filterMap, hd]
      | some a =>
          have := isValidCandidate_some dflt a hd
          subst this
          simp [List.filterMap, hd]
  | cons a rest => simp

/- ===================== Decimal codec lemmas ===================== -/

theorem charDigit_digitChar : ∀ d, d < 10 → charDigit (digitChar d) = d := by decide

theorem isDigitChar_digitChar : ∀ d, d < 10 → isDigitChar (digitChar d) = true := by decide

theorem digitChar_ne_dash : ∀ d, d < 10 → digitChar d ≠ '-' := by decide

theorem parseDecimalNatList_natToDecimalString (n : Nat) :
    parseDecimalNatList (natToDecimalString n).data = some n := by
  by_cases h0 : n = 0
  · subst h0; decide
  · unfold natToDecimalString
    rw [if_neg h0]
    show parseDecimalNatList ((Nat.digits 10 n).reverse.map digitChar) = some n
    have hds : ∀ d ∈ Nat.digits 10 n, d < 10 := fun d hd =>
      Nat.digits_lt_base (by norm_num) hd
    have hne : Nat.digits 10 n ≠ [] := Nat.digits_ne_nil_iff_ne_zero.mpr h0
    unfold parseDecimalNatList
    rw [if_pos]
    · congr 1
      rw [List.map_map]
      have hmap : (Nat.digits 10 n).reverse.map (charDigit ∘ digitChar) =
          (Nat.digits 10 n).reverse.map id := by
        apply List.map_congr_left
        intro d hd
        exact charDigit_digitChar d (hds d (List.mem_reverse.mp hd))
      rw [hmap, List.map_id, List.reverse_reverse, Nat.ofDigits_digits]
    · constructor
      · simp [hne]
      · rw [List.all_eq_true]
        intro c hc
        obtain ⟨d, hd, rfl⟩ := List.mem_map.mp hc
        exact isDigitChar_digitChar d (hds d (List.mem_reverse.mp hd))

theorem parseDecimalNat_natToDecimalString (n : Nat) :
    parseDecimalNat (natToDecimalString n) = some n :=
  parseDecimalNatList_natToDecimalString n

theorem natToDecimalString_no_dash (n : Nat) :
    ∀ c ∈ (natToDecimalString n).data, c ≠ '-' := by
  unfold natToDecimalString
  by_cases h0 : n = 0
  · rw [if_pos h0]
    intro c hc
    simp only [show ("0" : String).data = ['0'] from rfl, List.mem_singleton] at hc
    subst hc
    decide
  · rw [if_neg h0]
    intro c hc
    obtain ⟨d, hd, rfl⟩ := List.mem_map.mp hc
    exact digitChar_ne_dash d
      (Nat.digits_lt_base (by norm_num) (List.mem_reverse.mp hd))

theorem parseDecimalInt_intToDecimalString (i : Int) :
    parseDecimalInt (intToDecimalString i) = some i := by
  unfold intToDecimalString parseDecimalInt
  by_cases h : i < 0
  · rw [if_pos h, String.data_append]
    show parseDecimalIntList ('-' :: (natToDecimalString i.natAbs).data) = some i
    unfold parseDecimalIntList
    split
    · rename_i rest heq
      injection heq with _ heq2
      subst heq2
      rw [parseDecimalNatList_natToDecimalString]
      simp
      rw [abs_of_neg h]
      exact neg_neg i
    · rename_i hno
      exact absurd rfl (hno (natToDecimalString i.natAbs).data)
  · rw [if_neg h]
    cases hcs : (natToDecimalString i.toNat).data with
    | nil =>
        have hrt := parseDecimalNatList_natToDecimalString i.toNat
        rw [hcs] at hrt
        simp [parseDecimalNatList] at hrt
    | cons c rest =>
        have hcne : c ≠ '-' :=
          natToDecimalString_no_dash i.toNat c (hcs ▸ List.mem_cons_self c rest)
        unfold parseDecimalIntList
        split
        · rename_i r heq
          injection heq with heq1 _
          exact absurd heq1 hcne
        · have hrt := parseDecimalNatList_natToDecimalString i.toNat
          rw [hcs] at hrt
          rw [hrt]
          simp [Int.toNat_of_nonneg (not_lt.mp h)]

/- ===================== Claim theorems ===================== -/

/-- C2: for every network registered in `NETWORK_CONFIGS`, under any
assignment of the environment-variable overrides, the ERC-3009 signing
domain satisfies `erc3009Domain.chainId = chain.id` and
`erc3009Domain.verifyingContract = usdcAddress` (registry
self-consistency). -/
theorem C2_registry_domain_consistency (e : Env) (networkName : String)
    (cfg : NetworkConfig) (h : getNetworkConfig e networkName = some cfg) :
    cfg.erc3009Domain.chainId = cfg.chain.id ∧
    cfg.erc3009Domain.verifyingContract = cfg.usdcAddress := by
  simp only [getNetworkConfig, NETWORK_CONFIGS, lookupStr] at h
  split_ifs at h <;> (injection h with h; subst h; exact ⟨rfl, rfl⟩)

/-- C2 witness: the consistency instance for avalanche-fuji under an
empty environment. -/
theorem C2_registry_domain_consistency_witness :
    (avalancheFujiConfig envNone).erc3009Domain.chainId =
      (avalancheFujiConfig envNone).chain.id ∧
    (avalancheFujiConfig envNone).erc3009Domain.verifyingContract =
      (avalancheFujiConfig envNone).usdcAddress :=
  C2_registry_domain_consistency envNone "avalanche-fuji" (avalancheFujiConfig envNone)
    (by decide)

/-- C6: a stored record lacking `network` or `chainId` is returned by the
first read with the avalanche-fuji defaults (network "avalanche-fuji",
chain id 43113) and that fix-up is persisted; a second read of the
migrated store returns the same record and performs no further write. -/
theorem C6_migration_first_read_writes_once (s : RedisState) (id : String)
    (f : Facilitator) (h : lookupStr s.kv (facKey id) = some f)
    (hmiss : f.network = none ∨ f.chainId = none) :
    (migrateFac f).network = some "avalanche-fuji" ∧
    (migrateFac f).chainId = some 43113 ∧
    getFacilitator s id =
      (some (migrateFac f), ⟨redisSet s.kv (facKey id) (migrateFac f), s.activeIds⟩) ∧
    getFacilitator ⟨redisSet s.kv (facKey id) (migrateFac f), s.activeIds⟩ id =
      (some (migrateFac f), ⟨redisSet s.kv (facKey id) (migrateFac f), s.activeIds⟩) := by
  have hc : (strFalsy f.network || natFalsy f.chainId) = true := by
    rcases hmiss with hm | hm <;> simp [strFalsy, natFalsy, hm]
  have h1 : getFacilitator s id =
      (some (migrateFac f), ⟨redisSet s.kv (facKey id) (migrateFac f), s.activeIds⟩) := by
    rw [getFacilitator_of_lookup s id f h, if_pos hc]
  exact ⟨rfl, rfl, h1, getFacilitator_idem _ _ _ _ h1⟩

/-- C6 witness: the migration run on a concrete pre-network record. -/
theorem C6_migration_first_read_writes_once_witness :
    (migrateFac oldFac).network = some "avalanche-fuji" ∧
    (migrateFac oldFac).chainId = some 43113 ∧
    getFacilitator oldState "f2" =
      (some (migrateFac oldFac),
       ⟨redisSet oldState.kv (facKey "f2") (migrateFac oldFac), oldState.activeIds⟩) ∧
    getFacilitator
        ⟨redisSet oldState.kv (facKey "f2") (migrateFac oldFac), oldState.activeIds⟩ "f2" =
      (some (migrateFac oldFac),
       ⟨redisSet oldState.kv (facKey "f2") (migrateFac oldFac), oldState.activeIds⟩) :=
  C6_migration_first_read_writes_once oldState "f2" oldFac (by decide) (Or.inl rfl)

/-- C7: `createTransferAuthorization` yields a validity window with
`validBefore - validAfter = TIMEOUT_SECONDS + 60` (the 300-second window
plus the fixed 60-second clock-skew offset), and every field except the
nonce and the two timestamps is determined by the inputs. -/
theorem C7_authorization_window_and_determinism (e : Env)
    (fromAddr toAddr amountUSDC : String) (network : Option String)
    (config : X402Config) (now1 now2 : Int) (nonce1 nonce2 : String)
    (a1 a2 : TransferWithAuthorization)
    (hcfg : getX402Config e network = some config)
    (h1 : createTransferAuthorization e fromAddr toAddr amountUSDC network now1 nonce1 =
      some a1)
    (h2 : createTransferAuthorization e fromAddr toAddr amountUSDC network now2 nonce2 =
      some a2) :
    a1.validBefore - a1.validAfter = (config.TIMEOUT_SECONDS : Int) + 60 ∧
    a1.«from» = a2.«from» ∧ a1.«to» = a2.«to» ∧ a1.value = a2.value ∧
    a1.«from» = fromAddr ∧ a1.«to» = toAddr ∧ a1.nonce = nonce1 := by
  unfold createTransferAuthorization at h1 h2
  split at h1
  · exact absurd h1 (by simp)
  · rename_i cfg1 hc1
    rw [hcfg] at hc1
    injection hc1 with hc1
    subst hc1
    split at h1
    · exact absurd h1 (by simp)
    · rename_i v1 hv1
      split at h2
      · exact absurd h2 (by simp)
      · rename_i cfg2 hc2
        rw [hcfg] at hc2
        injection hc2 with hc2
        subst hc2
        split at h2
        · exact absurd h2 (by simp)
        · rename_i v2 hv2
          rw [hv1] at hv2
          injection hv2 with hv2
          subst hv2
          injection h1 with h1
          injection h2 with h2
          subst h1
          subst h2
          refine ⟨?_, rfl, rfl, rfl, rfl, rfl, rfl⟩
          show (now1 + (config.TIMEOUT_SECONDS : Int)) - (now1 - 60) =
            (config.TIMEOUT_SECONDS : Int) + 60
          omega

/-- C7 witness: the window and determinism instance for a 2.50 USDC
authorization on the default network. -/
theorem C7_authorization_window_and_determinism_witness :
    (⟨"0xA", "0xB", 2500000, 940, 1300, "0xn1"⟩ :
        TransferWithAuthorization).validBefore -
      (⟨"0xA", "0xB", 2500000, 940, 1300, "0xn1"⟩ :
        TransferWithAuthorization).validAfter =
      ((300 : Nat) : Int) + 60 ∧
    (⟨"0xA", "0xB", 2500000, 940, 1300, "0xn1"⟩ :
        TransferWithAuthorization).«from» =
      (⟨"0xA", "0xB", 2500000, 1940, 2300, "0xn2"⟩ :
        TransferWithAuthorization).«from» ∧
    (⟨"0xA", "0xB", 2500000, 940, 1300, "0xn1"⟩ :
        TransferWithAuthorization).«to» =
      (⟨"0xA", "0xB", 2500000, 1940, 2300, "0xn2"⟩ :
        TransferWithAuthorization).«to» ∧
    (⟨"0xA", "0xB", 2500000, 940, 1300, "0xn1"⟩ :
        TransferWithAuthorization).value =
      (⟨"0xA", "0xB", 2500000, 1940, 2300, "0xn2"⟩ :
        TransferWithAuthorization).value ∧
    (⟨"0xA", "0xB", 2500000, 940, 1300, "0xn1"⟩ :
        TransferWithAuthorization).«from» = "0xA" ∧
    (⟨"0xA", "0xB", 2500000, 940, 1300, "0xn1"⟩ :
        TransferWithAuthorization).«to» = "0xB" ∧
    (⟨"0xA", "0xB", 2500000, 940, 1300, "0xn1"⟩ :
        TransferWithAuthorization).nonce = "0xn1" :=
  C7_authorization_window_and_determinism envNone "0xA" "0xB" "2.50" none
    ⟨1, "/api/x402", "avalanche-fuji", "0x5425890298aed601595a70AB815c96711a31Bc65",
     "", "1", 6, 300⟩
    1000 2000 "0xn1" "0xn2"
    ⟨"0xA", "0xB", 2500000, 940, 1300, "0xn1"⟩
    ⟨"0xA", "0xB", 2500000, 1940, 2300, "0xn2"⟩
    (by decide) (by decide) (by decide)

/-- C8: serializing a signed authorization to the wire (JSON) form and
parsing the decimal-string fields back reproduces `value`, `validAfter`
and `validBefore` exactly, and leaves `from`, `to`, `nonce` and the
signature unchanged. -/
theorem C8_wire_roundtrip (sa : SignedAuthorization) :
    parseDecimalNat (signedAuthorizationToJSON sa).authorization.value =
      some sa.authorization.value ∧
    parseDecimalInt (signedAuthorizationToJSON sa).authorization.validAfter =
      some sa.authorization.validAfter ∧
    parseDecimalInt (signedAuthorizationToJSON sa).authorization.validBefore =
      some sa.authorization.validBefore ∧
    (signedAuthorizationToJSON sa).signature = sa.signature ∧
    (signedAuthorizationToJSON sa).authorization.«from» = sa.authorization.«from» ∧
    (signedAuthorizationToJSON sa).authorization.«to» = sa.authorization.«to» ∧
    (signedAuthorizationToJSON sa).authorization.nonce = sa.authorization.nonce :=
  ⟨parseDecimalNat_natToDecimalString _, parseDecimalInt_intToDecimalString _,
   parseDecimalInt_intToDecimalString _, rfl, rfl, rfl, rfl⟩

/-- Evaluation of the funding check on the happy path: the response is
the `ok` record built from `computeNewStatus`, and the store is written
exactly when the stored status differs from the computed one. -/
theorem checkAndActivate_eval (e : Env) (recTable : List (String × Nat))
    (s s1 : RedisState) (id : String) (f : Facilitator) (b : Nat)
    (hid : ¬ id = "")
    (hget : getFacilitator s id = (some f, s1))
    (cfg : NetworkConfig)
    (hc : getNetworkConfig e (networkOrDefault f.network) = some cfg) :
    checkAndActivate e recTable s id b =
      (CheckResult.ok (computeNewStatus b) (decide (DEACTIVATION_THRESHOLD_WEI < b))
         DEACTIVATION_THRESHOLD_WEI (recommendedFor recTable (networkOrDefault f.network)) b,
       if f.status = computeNewStatus b then s1
       else storeFacilitator s1 { f with status := computeNewStatus b }) := by
  unfold checkAndActivate
  rw [if_neg hid]
  split
  · rename_i s2 heq
    rw [heq] at hget
    simp at hget
  · rename_i f' s2 heq
    rw [heq] at hget
    obtain ⟨h1, h2⟩ := Prod.mk.injEq .. ▸ hget
    injection h1 with h1
    subst h1
    subst h2
    simp only [hc]
    by_cases hst : f'.status = computeNewStatus b
    · rw [if_neg (not_not_intro hst), if_pos hst]
    · rw [if_pos hst, if_neg hst]
      rw [updateFacilitatorStatus_eq s _ id f' (computeNewStatus b) heq]

/-- C3: the funding check follows the two-threshold policy — a balance
exactly at the deactivation threshold yields `needs_funding`, one wei
above yields `active`, and the recommended-balance table never affects
the computed status. -/
theorem C3_two_threshold_policy (e : Env) (recTable recTable' : List (String × Nat))
    (s : RedisState) (id : String) (f : Facilitator) (b : Nat)
    (hid : ¬ id = "")
    (hf : (getFacilitator s id).1 = some f)
    (hcfg : (getNetworkConfig e (networkOrDefault f.network)).isSome) :
    statusOf (checkAndActivate e recTable s id DEACTIVATION_THRESHOLD_WEI).1 =
      some FacStatus.needs_funding ∧
    statusOf (checkAndActivate e recTable s id (DEACTIVATION_THRESHOLD_WEI + 1)).1 =
      some FacStatus.active ∧
    statusOf (checkAndActivate e recTable s id b).1 =
      statusOf (checkAndActivate e recTable' s id b).1 := by
  obtain ⟨cfg, hc⟩ := Option.isSome_iff_exists.mp hcfg
  have hget : getFacilitator s id = (some f, (getFacilitator s id).2) := by
    rw [← hf]
  refine ⟨?_, ?_, ?_⟩
  · rw [checkAndActivate_eval e recTable s _ id f _ hid hget cfg hc]
    simp [statusOf, computeNewStatus]
  · rw [checkAndActivate_eval e recTable s _ id f _ hid hget cfg hc]
    simp [statusOf, computeNewStatus]
  · rw [checkAndActivate_eval e recTable s _ id f b hid hget cfg hc,
        checkAndActivate_eval e recTable' s _ id f b hid hget cfg hc]
    rfl

/-- C3 witness: the two boundary balances and two different
recommended-balance tables on a concrete record. -/
theorem C3_two_threshold_policy_witness :
    statusOf (checkAndActivate envNone RECOMMENDED_BALANCES_WEI sampleState "f1"
        DEACTIVATION_THRESHOLD_WEI).1 = some FacStatus.needs_funding ∧
    statusOf (checkAndActivate envNone RECOMMENDED_BALANCES_WEI sampleState "f1"
        (DEACTIVATION_THRESHOLD_WEI + 1)).1 = some FacStatus.active ∧
    statusOf (checkAndActivate envNone RECOMMENDED_BALANCES_WEI sampleState "f1" 12345).1 =
      statusOf (checkAndActivate envNone [("avalanche-fuji", 1)] sampleState "f1" 12345).1 :=
  C3_two_threshold_policy envNone RECOMMENDED_BALANCES_WEI [("avalanche-fuji", 1)]
    sampleState "f1" sampleFac 12345 (by decide) (by decide) (by decide)

/-- C9 counterexample: on a pre-network record whose stored status equals
the computed one, the funding check still mutates the store (the
read-path migration write), refuting the claim that the record is
written only when the computed status differs. -/
theorem C9_counterexample :
    statusOf (checkAndActivate envNone [] oldState "f2" 1000000000000000).1 =
      some oldFac.status ∧
    (checkAndActivate envNone [] oldState "f2" 1000000000000000).2 ≠ oldState :=
  ⟨by decide, by decide⟩

/-- C9 (amended): for records already carrying a `network` and `chainId`,
the funding check writes the record exactly when the computed status
differs from the stored one — when they are equal the store is
untouched; pre-network records additionally receive the one-time
migration write on read. -/
theorem C9_status_write_iff_changed (e : Env) (recTable : List (String × Nat))
    (s : RedisState) (id : String) (f : Facilitator) (b : Nat)
    (hid : ¬ id = "")
    (hf : lookupStr s.kv (facKey id) = some f)
    (hnet : strFalsy f.network = false)
    (hcid : natFalsy f.chainId = false)
    (hcfg : (getNetworkConfig e (networkOrDefault f.network)).isSome) :
    (computeNewStatus b = f.status → (checkAndActivate e recTable s id b).2 = s) ∧
    (computeNewStatus b ≠ f.status →
      (checkAndActivate e recTable s id b).2 =
        ⟨redisSet s.kv (facKey f.id) { f with status := computeNewStatus b },
         saddList s.activeIds f.id⟩) := by
  obtain ⟨cfg, hc⟩ := Option.isSome_iff_exists.mp hcfg
  have hget : getFacilitator s id = (some f, s) := by
    rw [getFacilitator_of_lookup s id f hf, if_neg]
    simp [hnet, hcid]
  constructor
  · intro hb
    rw [checkAndActivate_eval e recTable s s id f b hid hget cfg hc, if_pos hb.symm]
  · intro hb
    rw [checkAndActivate_eval e recTable s s id f b hid hget cfg hc,
        if_neg (fun hh => hb hh.symm)]
    rfl

/-- C9 witness: a funding check that recomputes the stored status leaves
a concrete store untouched. -/
theorem C9_status_write_iff_changed_witness :
    (checkAndActivate envNone [] sampleState "f1" 1000000000000000).2 = sampleState :=
  (C9_status_write_iff_changed envNone [] sampleState "f1" sampleFac 1000000000000000
    (by decide) (by decide) (by decide) (by decide) (by decide)).1 (by decide)

/-- Evaluation of the batch route once the request passes validation,
facilitator lookup, network match, master-key and decryption checks: the
result is determined by the run of the sequential loop. -/
theorem settleBatch_eval (e : Env) (s s1 : RedisState) (fid net : String)
    (ac : Nat) (outcomes : List Outcome) (now : Nat) (f : Facilitator)
    (hfid : ¬ fid = "") (hnet : ¬ net = "") (hac : ¬ ac = 0)
    (hget : getFacilitator s fid = (some f, s1))
    (hmatch : networkOrDefault f.network = net)
    (hkey : strFalsy (e "SYSTEM_MASTER_KEY") = false)
    (cfg : NetworkConfig) (hcfg : getNetworkConfig e net = some cfg) :
    settleBatch e s fid net ac outcomes (.ok ()) now =
      (match (execLegs (outcomes.take ac)).failMsg with
       | some m => (BatchResponse.failed "Batch settlement failed" m, s1,
                    (execLegs (outcomes.take ac)).txHashes)
       | none => (BatchResponse.ok (execLegs (outcomes.take ac)).txHashes
                    (execLegs (outcomes.take ac)).txHashes.length
                    (execLegs (outcomes.take ac)).totalGas,
                  storeFacilitator s1
                    { f with totalPayments := f.totalPayments + 1, lastUsed := now },
                  (execLegs (outcomes.take ac)).txHashes)) := by
  unfold settleBatch
  rw [if_neg (not_or.mpr ⟨hfid, hnet⟩), if_neg hac]
  split
  · rename_i s2 heq
    rw [heq] at hget
    simp at hget
  · rename_i f' s2 heq
    rw [heq] at hget
    obtain ⟨h1, h2⟩ := Prod.mk.injEq .. ▸ hget
    injection h1 with h1
    subst h1
    subst h2
    have hrp := recordPayment_eq s _ fid f' now heq
    simp only [hmatch, hkey, hcfg, hrp]
    cases hfm : (execLegs (outcomes.take ac)).failMsg with
    | some m => simp [hfm]
    | none => simp [hfm]

/-- Evaluation of the single-settlement route on the path that reaches
the on-chain call, for a successful transaction. -/
theorem settleCustom_eval_success (e : Env) (s s1 : RedisState) (fid rn : String)
    (rc : Option Nat) (u c v pd : Option String) (f : Facilitator)
    (ucfg : USDCContract) (h : String) (gu gp now : Nat)
    (hfid : ¬ fid = "")
    (hget : getFacilitator s fid = (some f, s1))
    (hrn : ¬ rn = "")
    (hsupp : isNetworkSupported e rn = true)
    (husdc : getUSDCContract e rn = .ok ucfg)
    (hkey : strFalsy (e "SYSTEM_MASTER_KEY") = false) :
    settleCustom e s fid (some rn) rc u c v pd (.ok ()) (Outcome.success h gu gp) now =
      (CustomResponse.ok h rn (resolveUsdcAddress u c v pd ucfg.address),
       storeFacilitator s1
         { f with totalPayments := f.totalPayments + 1, lastUsed := now }) := by
  obtain ⟨cfg, hcfg⟩ := Option.isSome_iff_exists.mp hsupp
  unfold settleCustom
  rw [if_neg hfid]
  split
  · rename_i s2 heq
    rw [heq] at hget
    simp at hget
  · rename_i f' s2 heq
    rw [heq] at hget
    obtain ⟨h1, h2⟩ := Prod.mk.injEq .. ▸ hget
    injection h1 with h1
    subst h1
    subst h2
    have hrp := recordPayment_eq s _ fid f' now heq
    simp [hrn, hsupp, hcfg, husdc, hkey, hrp]

/-- Evaluation of the single-settlement route on the path that reaches
the on-chain call, for a failed transaction: the catch-all 500 response,
with the store as it stood after the facilitator read. -/
theorem settleCustom_eval_failure (e : Env) (s s1 : RedisState) (fid rn : String)
    (rc : Option Nat) (u c v pd : Option String) (f : Facilitator)
    (ucfg : USDCContract) (msg : String) (now : Nat)
    (hfid : ¬ fid = "")
    (hget : getFacilitator s fid = (some f, s1))
    (hrn : ¬ rn = "")
    (hsupp : isNetworkSupported e rn = true)
    (husdc : getUSDCContract e rn = .ok ucfg)
    (hkey : strFalsy (e "SYSTEM_MASTER_KEY") = false) :
    settleCustom e s fid (some rn) rc u c v pd (.ok ()) (Outcome.failure msg) now =
      (CustomResponse.failed "Settlement failed" msg, s1) := by
  obtain ⟨cfg, hcfg⟩ := Option.isSome_iff_exists.mp hsupp
  unfold settleCustom
  rw [if_neg hfid]
  split
  · rename_i s2 heq
    rw [heq] at hget
    simp at hget
  · rename_i f' s2 heq
    rw [heq] at hget
    obtain ⟨h1, h2⟩ := Prod.mk.injEq .. ▸ hget
    injection h1 with h1
    subst h1
    subst h2
    simp [hrn, hsupp, hcfg, husdc, hkey]

/-- C5 counterexample: a single settlement whose request carries no
explicit `usdcAddress` and no `contractAddress`, yet settles against the
`verifyingContract` field instead of the registry default — a source
outside the three listed in the claim supplies the token address. -/
theorem C5_counterexample :
    (settleCustom envMK sampleState "f1" (some "avalanche-fuji") none
        none none (some "0x1111111111111111111111111111111111111111") none
        (.ok ()) (Outcome.success "0xh1" 21000 2) 999).1 =
      CustomResponse.ok "0xh1" "avalanche-fuji"
        "0x1111111111111111111111111111111111111111" ∧
    getUSDCContract envMK "avalanche-fuji" =
      .ok ⟨"0x5425890298aed601595a70AB815c96711a31Bc65", 6, "USDC", "USD Coin"⟩ ∧
    "0x1111111111111111111111111111111111111111" ≠
      "0x5425890298aed601595a70AB815c96711a31Bc65" :=
  ⟨by decide, by rfl, by decide⟩

/-- C5 (amended): the token contract address of a single settlement is
resolved first-match-wins from `usdcAddress`, then `contractAddress`,
then `verifyingContract`, then the signed payload's
`domain.verifyingContract`, and finally the registry default — a
candidate counts only if it is a string other than `0x` of length at
least 42. -/
theorem C5_token_address_first_match (e : Env) (s s1 : RedisState) (fid rn : String)
    (rc : Option Nat) (u c v pd : Option String) (f : Facilitator)
    (ucfg : USDCContract) (h : String) (gu gp now : Nat)
    (hfid : ¬ fid = "")
    (hget : getFacilitator s fid = (some f, s1))
    (hrn : ¬ rn = "")
    (hsupp : isNetworkSupported e rn = true)
    (husdc : getUSDCContract e rn = .ok ucfg)
    (hkey : strFalsy (e "SYSTEM_MASTER_KEY") = false) :
    (settleCustom e s fid (some rn) rc u c v pd (.ok ())
        (Outcome.success h gu gp) now).1 =
      CustomResponse.ok h rn
        ((([u, c, v, pd].filterMap isValidCandidate).head?).getD ucfg.address) := by
  rw [settleCustom_eval_success e s s1 fid rn rc u c v pd f ucfg h gu gp now
      hfid hget hrn hsupp husdc hkey]
  show CustomResponse.ok h rn (resolveUsdcAddress u c v pd ucfg.address) = _
  rw [resolveUsdcAddress_eq]

/-- C5 witness: the resolution at a concrete request where only the
`contractAddress` alternate field is present. -/
theorem C5_token_address_first_match_witness :
    (settleCustom envMK sampleState "f1" (some "avalanche-fuji") none
        none (some "0x2222222222222222222222222222222222222222") none none
        (.ok ()) (Outcome.success "0xh9" 21000 2) 999).1 =
      CustomResponse.ok "0xh9" "avalanche-fuji"
        ((([none, some "0x2222222222222222222222222222222222222222", none,
            none].filterMap isValidCandidate).head?).getD
          "0x5425890298aed601595a70AB815c96711a31Bc65") :=
  C5_token_address_first_match envMK sampleState sampleState "f1" "avalanche-fuji"
    none none (some "0x2222222222222222222222222222222222222222") none none
    sampleFac ⟨"0x5425890298aed601595a70AB815c96711a31Bc65", 6, "USDC", "USD Coin"⟩
    "0xh9" 21000 2 999
    (by decide) (by decide) (by decide) (by decide) (by rfl) (by decide)

/-- C1 counterexample: a three-leg batch whose second leg fails.  The
first leg's transaction is confirmed on chain (third component), but the
route's catch-all response carries only the error and message fields —
`responseHashes` of the returned body is empty, not the list of
completed hashes the claim promises. -/
theorem C1_counterexample :
    settleBatch envMK sampleState "f1" "avalanche-fuji" 3
        [Outcome.success "0xh1" 21000 2, Outcome.failure "execution reverted",
         Outcome.success "0xh3" 21000 2] (.ok ()) 999 =
      (BatchResponse.failed "Batch settlement failed" "execution reverted",
       sampleState, ["0xh1"]) ∧
    responseHashes
        (BatchResponse.failed "Batch settlement failed" "execution reverted") = [] ∧
    (["0xh1"] : List String) ≠ [] :=
  ⟨by decide, rfl, by decide⟩

/-- C1 (amended): when leg k of a batch is the first to fail, the legs
before k remain confirmed on chain, no leg after k is ever submitted,
and the response is the catch-all failure carrying the failure detail
for leg k only — the hashes completed so far are not included in the
response body. -/
theorem C1_batch_stops_at_first_failure (e : Env) (s s1 : RedisState) (fid net : String)
    (pres : List (String × Nat × Nat)) (m : String) (post : List Outcome)
    (f : Facilitator) (now : Nat) (cfg : NetworkConfig)
    (hfid : ¬ fid = "") (hnet : ¬ net = "")
    (hget : getFacilitator s fid = (some f, s1))
    (hmatch : networkOrDefault f.network = net)
    (hkey : strFalsy (e "SYSTEM_MASTER_KEY") = false)
    (hcfg : getNetworkConfig e net = some cfg) :
    settleBatch e s fid net
        (pres.map (fun t => Outcome.success t.1 t.2.1 t.2.2) ++
          Outcome.failure m :: post).length
        (pres.map (fun t => Outcome.success t.1 t.2.1 t.2.2) ++ Outcome.failure m :: post)
        (.ok ()) now =
      (BatchResponse.failed "Batch settlement failed" m, s1, pres.map (fun t => t.1)) ∧
    (execLegs (pres.map (fun t => Outcome.success t.1 t.2.1 t.2.2) ++
        Outcome.failure m :: post)).submitted = pres.length + 1 := by
  have hlen : ¬ (pres.map (fun t => Outcome.success t.1 t.2.1 t.2.2) ++
      Outcome.failure m :: post).length = 0 := by simp
  constructor
  · rw [settleBatch_eval e s s1 fid net _ _ now f hfid hnet hlen hget hmatch hkey cfg hcfg]
    rw [List.take_length, execLegs_stops_at_failure]
  · rw [execLegs_stops_at_failure]

/-- C1 witness: a concrete two-leg batch failing at the second leg. -/
theorem C1_batch_stops_at_first_failure_witness :
    settleBatch envMK sampleState "f1" "avalanche-fuji"
        ([("0xh1", 21000, 2)].map (fun t => Outcome.success t.1 t.2.1 t.2.2) ++
          Outcome.failure "boom" :: []).length
        ([("0xh1", 21000, 2)].map (fun t => Outcome.success t.1 t.2.1 t.2.2) ++
          Outcome.failure "boom" :: [])
        (.ok ()) 999 =
      (BatchResponse.failed "Batch settlement failed" "boom", sampleState,
       [("0xh1", 21000, 2)].map (fun t => t.1)) ∧
    (execLegs ([("0xh1", 21000, 2)].map (fun t => Outcome.success t.1 t.2.1 t.2.2) ++
        Outcome.failure "boom" :: [])).submitted = [("0xh1", 21000, 2)].length + 1 :=
  C1_batch_stops_at_first_failure envMK sampleState sampleState "f1" "avalanche-fuji"
    [("0xh1", 21000, 2)] "boom" [] sampleFac 999 (avalancheFujiConfig envMK)
    (by decide) (by decide) (by decide) (by decide) (by decide) (by decide)

/-- C4: a settlement attempt — batch or single — in which an on-chain
submission or confirmation fails leaves the facilitator's
`totalPayments` counter and `lastUsed` timestamp unchanged: the
payment-recording write runs only after every leg has confirmed. -/
theorem C4_failed_settlement_preserves_counters (e : Env) (s s1 : RedisState)
    (fid net rn : String) (pres : List (String × Nat × Nat)) (m msg : String)
    (post : List Outcome) (now : Nat) (f0 f : Facilitator) (cfg : NetworkConfig)
    (ucfg : USDCContract) (rc : Option Nat) (u c v pd : Option String)
    (g1 g2 : Facilitator)
    (hf0 : lookupStr s.kv (facKey fid) = some f0)
    (hfid : ¬ fid = "") (hnet : ¬ net = "")
    (hget : getFacilitator s fid = (some f, s1))
    (hmatch : networkOrDefault f.network = net)
    (hkey : strFalsy (e "SYSTEM_MASTER_KEY") = false)
    (hcfg : getNetworkConfig e net = some cfg)
    (hrn : ¬ rn = "") (hsupp : isNetworkSupported e rn = true)
    (husdc : getUSDCContract e rn = .ok ucfg)
    (hg1 : lookupStr (settleBatch e s fid net
          (pres.map (fun t => Outcome.success t.1 t.2.1 t.2.2) ++
            Outcome.failure m :: post).length
          (pres.map (fun t => Outcome.success t.1 t.2.1 t.2.2) ++
            Outcome.failure m :: post) (.ok ()) now).2.1.kv (facKey fid) = some g1)
    (hg2 : lookupStr (settleCustom e s fid (some rn) rc u c v pd (.ok ())
          (Outcome.failure msg) now).2.kv (facKey fid) = some g2) :
    (g1.totalPayments = f0.totalPayments ∧ g1.lastUsed = f0.lastUsed) ∧
    (g2.totalPayments = f0.totalPayments ∧ g2.lastUsed = f0.lastUsed) := by
  have hlen : ¬ (pres.map (fun t => Outcome.success t.1 t.2.1 t.2.2) ++
      Outcome.failure m :: post).length = 0 := by simp
  constructor
  · rw [settleBatch_eval e s s1 fid net _ _ now f hfid hnet hlen hget hmatch hkey cfg hcfg,
        List.take_length] at hg1
    simp only [execLegs_stops_at_failure] at hg1
    have hb : lookupStr (getFacilitator s fid).2.kv (facKey fid) = some g1 := by
      rw [hget]; exact hg1
    exact lookup_after_getFacilitator s fid f0 g1 hf0 hb
  · rw [settleCustom_eval_failure e s s1 fid rn rc u c v pd f ucfg msg now
        hfid hget hrn hsupp husdc hkey] at hg2
    have hb : lookupStr (getFacilitator s fid).2.kv (facKey fid) = some g2 := by
      rw [hget]; exact hg2
    exact lookup_after_getFacilitator s fid f0 g2 hf0 hb

/-- C4 witness: concrete failed batch and single settlements leave the
stored counters at their prior values. -/
theorem C4_failed_settlement_preserves_counters_witness :
    (sampleFac.totalPayments = sampleFac.totalPayments ∧
      sampleFac.lastUsed = sampleFac.lastUsed) ∧
    (sampleFac.totalPayments = sampleFac.totalPayments ∧
      sampleFac.lastUsed = sampleFac.lastUsed) :=
  C4_failed_settlement_preserves_counters envMK sampleState sampleState
    "f1" "avalanche-fuji" "avalanche-fuji" [("0xh1", 21000, 2)] "boom" "reverted"
    [] 999 sampleFac sampleFac (avalancheFujiConfig envMK)
    ⟨"0x5425890298aed601595a70AB815c96711a31Bc65", 6, "USDC", "USD Coin"⟩
    none none none none none sampleFac sampleFac
    (by decide) (by decide) (by decide) (by decide) (by decide) (by decide)
    (by decide) (by decide) (by decide) (by rfl) (by decide) (by decide)

/-- C10: a successful batch of n authorizations returns all n confirmed
hashes but increments the facilitator's `totalPayments` by exactly one
(the counter counts batches, not transfers), stamping `lastUsed`. -/
theorem C10_batch_increments_once (e : Env) (s s1 : RedisState) (fid net : String)
    (pres : List (String × Nat × Nat)) (now : Nat) (f0 f : Facilitator)
    (cfg : NetworkConfig)
    (hf0 : lookupStr s.kv (facKey fid) = some f0)
    (hfid : ¬ fid = "") (hnet : ¬ net = "")
    (hget : getFacilitator s fid = (some f, s1))
    (hid : f.id = fid)
    (hmatch : networkOrDefault f.network = net)
    (hkey : strFalsy (e "SYSTEM_MASTER_KEY") = false)
    (hcfg : getNetworkConfig e net = some cfg)
    (hn : ¬ pres.length = 0) :
    (settleBatch e s fid net pres.length
        (pres.map (fun t => Outcome.success t.1 t.2.1 t.2.2)) (.ok ()) now).1 =
      BatchResponse.ok (pres.map (fun t => t.1)) pres.length
        ((pres.map (fun t => t.2.1 * t.2.2)).sum) ∧
    lookupStr (settleBatch e s fid net pres.length
        (pres.map (fun t => Outcome.success t.1 t.2.1 t.2.2)) (.ok ()) now).2.1.kv
        (facKey fid) =
      some { f with totalPayments := f.totalPayments + 1, lastUsed := now } ∧
    f.totalPayments = f0.totalPayments := by
  have htake : (pres.map (fun t => Outcome.success t.1 t.2.1 t.2.2)).take pres.length =
      pres.map (fun t => Outcome.success t.1 t.2.1 t.2.2) := by
    rw [← List.length_map pres (fun t => Outcome.success t.1 t.2.1 t.2.2)]
    exact List.take_length _
  have heval := settleBatch_eval e s s1 fid net pres.length
    (pres.map (fun t => Outcome.success t.1 t.2.1 t.2.2)) now f
    hfid hnet hn hget hmatch hkey cfg hcfg
  rw [htake] at heval
  simp only [execLegs_all_success] at heval
  refine ⟨?_, ?_, (getFacilitator_preserves s fid f0 f hf0 (by rw [hget])).1⟩
  · rw [heval]
    simp
  · rw [heval]
    show lookupStr (storeFacilitator s1
        { f with totalPayments := f.totalPayments + 1, lastUsed := now }).kv
        (facKey fid) = _
    unfold storeFacilitator
    have : ({ f with totalPayments := f.totalPayments + 1, lastUsed := now } :
        Facilitator).id = fid := hid
    rw [this, lookupStr_redisSet_self]

/-- C10 witness: a concrete two-transfer batch bumps the counter from 5
to 6, not to 7. -/
theorem C10_batch_increments_once_witness :
    (settleBatch envMK sampleState "f1" "avalanche-fuji"
        [("0xh1", 21000, 2), ("0xh2", 30000, 3)].length
        ([("0xh1", 21000, 2), ("0xh2", 30000, 3)].map
          (fun t => Outcome.success t.1 t.2.1 t.2.2)) (.ok ()) 999).1 =
      BatchResponse.ok ([("0xh1", 21000, 2), ("0xh2", 30000, 3)].map (fun t => t.1))
        [("0xh1", 21000, 2), ("0xh2", 30000, 3)].length
        (([("0xh1", 21000, 2), ("0xh2", 30000, 3)].map
          (fun t => t.2.1 * t.2.2)).sum) ∧
    lookupStr (settleBatch envMK sampleState "f1" "avalanche-fuji"
        [("0xh1", 21000, 2), ("0xh2", 30000, 3)].length
        ([("0xh1", 21000, 2), ("0xh2", 30000, 3)].map
          (fun t => Outcome.success t.1 t.2.1 t.2.2)) (.ok ()) 999).2.1.kv
        (facKey "f1") =
      some
        { sampleFac with
          totalPayments := sampleFac.totalPayments + 1
          lastUsed := 999 } ∧
    sampleFac.totalPayments = sampleFac.totalPayments :=
  C10_batch_increments_once envMK sampleState sampleState "f1" "avalanche-fuji"
    [("0xh1", 21000, 2), ("0xh2", 30000, 3)] 999 sampleFac sampleFac
    (avalancheFujiConfig envMK)
    (by decide) (by decide) (by decide) (by decide) (by decide) (by decide)
    (by decide) (by decide) (by decide)
